import Mathlib

/-!
Verification of `require-esm-in-cjs` (src/src/index.js).

The whole program is one function:

  function main(uri){
      let mod;
      import(uri)
          .then(res => mod = res.default)
          .catch(err => console.error(mod = err))
      while (!mod) deasync.sleep(100);
      return mod
      }

We embed it shallowly.  JavaScript values are `JSValue` with JS truthiness.
The dynamic `import(uri)` is described by a `LoadSpec`: either it never
settles, or it settles during polling interval `s + 1` (so it is first
observable at the check following `s` completed sleeps) with an `Outcome`
(a namespace object on resolution, an error value on rejection).  The
single slot variable `mod` is the time-indexed `slotAt`: `undefined` until
the settlement callback has run, and afterwards the stored value — the
`.then` callback stores `res.default`, the `.catch` callback stores `err`.
The `while (!mod)` loop is the fuel-indexed `bridgeLoop`; each iteration
that observes a falsy slot performs one `deasync.sleep(100)`, which
advances the host scheduler (`sleepStep` on `World`) by one polling
interval.  `main ls w fuel = some (t, v, w')` means the call returns value
`v` at the check after `t` sleeps with final scheduler state `w'`;
non-termination is `= none` for every fuel.
-/

namespace RequireEsmInCjs

/-- JavaScript values, as far as this program distinguishes them:
`undefined`, `null`, booleans, numbers, strings, and (opaque, always
truthy) objects tagged by an identity. -/
inductive JSValue : Type
  | undefined : JSValue
  | vnull : JSValue
  | vbool : Bool → JSValue
  | vnum : Int → JSValue
  | vstr : String → JSValue
  | vobj : Nat → JSValue
deriving DecidableEq, Repr

/-- JavaScript truthiness, used by the loop condition `while (!mod)`. -/
def truthy : JSValue → Bool
  | .undefined => false
  | .vnull => false
  | .vbool b => b
  | .vnum n => n != 0
  | .vstr s => s != ""
  | .vobj _ => true

/-- A module namespace object is a list of named members; member access
(`res.default`) yields `undefined` when the member is absent. -/
def getMember : List (String × JSValue) → String → JSValue
  | [], _ => JSValue.undefined
  | (k, v) :: rest, key => if k = key then v else getMember rest key

/-- How the promise returned by `import(uri)` settles: with a namespace
object (fulfillment) or with an error value (rejection). -/
inductive Outcome : Type
  | resolved : List (String × JSValue) → Outcome
  | rejected : JSValue → Outcome
deriving DecidableEq, Repr

/-- What the completion callbacks of src/src/index.js lines 8-9 write into
`mod`: `res.default` on fulfillment, `err` on rejection. -/
def stored : Outcome → JSValue
  | .resolved ns => getMember ns "default"
  | .rejected e => e

/-- The behaviour of `import(uri)` for one invocation: `none` if the
promise never settles, `some (s, o)` if its callback runs during the
polling interval after `s` completed sleeps, with outcome `o`.  (The
callback can never run before the first sleep: the loop is entered
synchronously right after the handlers are attached.) -/
structure LoadSpec : Type where
  settle : Option (Nat × Outcome)
deriving DecidableEq, Repr

/-- The value of the slot variable `mod` (src/src/index.js line 5) at the
loop check following `t` completed sleeps: `undefined` until the
settlement callback has run, the stored value afterwards.  A promise
settles at most once, so the slot is written at most once. -/
def slotAt (ls : LoadSpec) (t : Nat) : JSValue :=
  match ls.settle with
  | none => JSValue.undefined
  | some (s, o) => if s < t then stored o else JSValue.undefined

/-- The host scheduler as seen by this call: how many polling intervals
have elapsed, and the latencies (in polling intervals from time zero) of
the other asynchronous tasks still pending in the process. -/
structure World : Type where
  time : Nat
  otherTasks : List Nat
deriving DecidableEq, Repr

/-- Modelled from the spec: `deasync.sleep(100)` is the external
cooperative-yield collaborator (spec §6), not part of src/.  Per its
contract it suspends only the calling flow for one polling interval while
the host event loop keeps processing queued work, so one sleep advances
the clock by one interval and completes every other pending task whose
latency has elapsed. -/
def sleepStep (w : World) : World :=
  ⟨w.time + 1, w.otherTasks.filter (fun l => w.time + 1 < l)⟩

/-- `sleepIter d w`: the scheduler state after `d` consecutive sleeps. -/
def sleepIter : Nat → World → World
  | 0, w => w
  | d + 1, w => sleepIter d (sleepStep w)

/-- The polling loop `while (!mod) deasync.sleep(100);` of
src/src/index.js line 11, fuel-indexed: at the check after `t` sleeps,
if the slot is truthy the function returns it (line 13), otherwise it
sleeps once more and re-checks. -/
def bridgeLoop (ls : LoadSpec) : Nat → World → Nat → Option (Nat × JSValue × World)
  | _, _, 0 => none
  | t, w, fuel + 1 =>
      if truthy (slotAt ls t) then some (t, slotAt ls t, w)
      else bridgeLoop ls (t + 1) (sleepStep w) fuel

/-- The function `main` of src/src/index.js: start the load, then poll
from zero completed sleeps.  `some (t, v, w')` means it returns `v` after
`t` sleeps leaving scheduler state `w'`; `none` for every fuel means the
call never returns. -/
def main (ls : LoadSpec) (w : World) (fuel : Nat) : Option (Nat × JSValue × World) :=
  bridgeLoop ls 0 w fuel

/-- An environment mapping load identifiers (the `uri` argument) to the
behaviour of their asynchronous load. -/
def Env : Type := String → LoadSpec

/-- `bridge env uri`: the exported function applied to an identifier. -/
def bridge (env : Env) (uri : String) : World → Nat → Option (Nat × JSValue × World) :=
  main (env uri)

/-- Two sequential invocations of the bridge, the second starting in the
scheduler state the first left behind; each call has its own slot
(`let mod` is function-local) and its own poll counter. -/
def mainSeq2 (env : Env) (u₁ u₂ : String) (w : World) (fuel₁ fuel₂ : Nat) :
    Option ((Nat × JSValue) × (Nat × JSValue) × World) :=
  match bridge env u₁ w fuel₁ with
  | none => none
  | some (t₁, v₁, w₁) =>
      match bridge env u₂ w₁ fuel₂ with
      | none => none
      | some (t₂, v₂, w₂) => some ((t₁, v₁), (t₂, v₂), w₂)

/-! ### Concrete load behaviours used as test inputs -/

/-- A load that resolves after the first interval to `{default: 42}`. -/
def ex42 : LoadSpec := ⟨some (0, Outcome.resolved [("default", JSValue.vnum 42)])⟩

/-- A load that rejects after the first interval with `"not found"`. -/
def exErr : LoadSpec := ⟨some (0, Outcome.rejected (JSValue.vstr "not found"))⟩

/-- A load that resolves after the first interval to `{default: 0}`. -/
def exZero : LoadSpec := ⟨some (0, Outcome.resolved [("default", JSValue.vnum 0)])⟩

/-- A load that resolves after the first interval to `{default: false}`. -/
def exFalse : LoadSpec := ⟨some (0, Outcome.resolved [("default", JSValue.vbool false)])⟩

/-- A load that resolves after the first interval to a namespace with no
`default` member. -/
def exNoDefault : LoadSpec := ⟨some (0, Outcome.resolved [("name", JSValue.vstr "esm-pkg")])⟩

/-- A load whose promise never settles. -/
def exNever : LoadSpec := ⟨none⟩

/-- A load that resolves after three intervals to `{default: "slow"}`. -/
def exSlow : LoadSpec := ⟨some (2, Outcome.resolved [("default", JSValue.vstr "slow")])⟩

/-- An environment with two identifiers of independent outcomes. -/
def exEnv : Env := fun u =>
  if u = "fastMod" then ex42
  else if u = "otherMod" then ⟨some (2, Outcome.resolved [("default", JSValue.vstr "other")])⟩
  else exNever

example : main ex42 ⟨0, []⟩ 3 = some (1, JSValue.vnum 42, ⟨1, []⟩) := by decide
example : main exErr ⟨0, []⟩ 3 = some (1, JSValue.vstr "not found", ⟨1, []⟩) := by decide
example : main exZero ⟨0, []⟩ 50 = none := by decide

/-! ### General lemmas about the loop -/

/-- The slot is still pending at the very first check: the settlement
callback cannot run before the loop has yielded at least once. -/
theorem slotAt_zero (ls : LoadSpec) : slotAt ls 0 = JSValue.undefined := by
  cases hs : ls.settle with
  | none => simp [slotAt, hs]
  | some p => obtain ⟨s, o⟩ := p; simp [slotAt, hs]

/-- Once the slot is non-pending it keeps that value forever. -/
theorem slot_stable (ls : LoadSpec) {t u : Nat} (htu : t ≤ u)
    (h : slotAt ls t ≠ JSValue.undefined) : slotAt ls u = slotAt ls t := by
  cases hs : ls.settle with
  | none => simp [slotAt, hs] at h
  | some p =>
    obtain ⟨s, o⟩ := p
    by_cases hst : s < t
    · simp [slotAt, hs, hst, Nat.lt_of_lt_of_le hst htu]
    · simp [slotAt, hs, hst] at h

/-- If the slot is falsy at every check, the loop never exits. -/
theorem loop_stuck (ls : LoadSpec) (hall : ∀ i, truthy (slotAt ls i) = false) :
    ∀ fuel t w, bridgeLoop ls t w fuel = none := by
  intro fuel
  induction fuel with
  | zero => intro t w; rfl
  | succ n ih =>
    intro t w
    simp [bridgeLoop, hall t]
    exact ih (t + 1) (sleepStep w)

/-- If the load settles with a falsy stored value, the slot is falsy at
every check. -/
theorem slot_always_falsy (ls : LoadSpec) (s : Nat) (o : Outcome)
    (hs : ls.settle = some (s, o)) (hf : truthy (stored o) = false) :
    ∀ i, truthy (slotAt ls i) = false := by
  intro i
  simp only [slotAt, hs]
  split
  · exact hf
  · rfl

/-- If the load settles after `s` intervals with a truthy stored value,
then starting the poll at check `t` with `t + d = s + 1` and fuel `d + 1`
the loop returns that value at check `s + 1`, having slept `d` times. -/
theorem run_to_settle (ls : LoadSpec) {s : Nat} {o : Outcome}
    (hs : ls.settle = some (s, o)) (ht : truthy (stored o) = true) :
    ∀ d t w, t + d = s + 1 →
      bridgeLoop ls t w (d + 1) = some (s + 1, stored o, sleepIter d w) := by
  intro d
  induction d with
  | zero =>
    intro t w htd
    have heq : t = s + 1 := by omega
    subst heq
    have hslot : slotAt ls (s + 1) = stored o := by
      simp [slotAt, hs]
    simp [bridgeLoop, hslot, ht, sleepIter]
  | succ n ih =>
    intro t w htd
    have hnlt : ¬ s < t := by omega
    have hslot : slotAt ls t = JSValue.undefined := by
      simp [slotAt, hs, hnlt]
    have hfalse : ¬ truthy (slotAt ls t) = true := by
      rw [hslot]; simp [truthy]
    show (if truthy (slotAt ls t) = true then some (t, slotAt ls t, w)
          else bridgeLoop ls (t + 1) (sleepStep w) (n + 1)) =
        some (s + 1, stored o, sleepIter (n + 1) w)
    rw [if_neg hfalse, ih (t + 1) (sleepStep w) (by omega)]
    rfl

/-- Inversion: if the loop returns, the returned value is the (truthy)
slot value at the returning check, and the final scheduler state results
from one sleep per completed interval. -/
theorem loop_inv (ls : LoadSpec) :
    ∀ fuel t w t' v w', bridgeLoop ls t w fuel = some (t', v, w') →
      t ≤ t' ∧ v = slotAt ls t' ∧ truthy v = true ∧ w' = sleepIter (t' - t) w := by
  intro fuel
  induction fuel with
  | zero =>
    intro t w t' v w' h
    exact absurd h (by simp [bridgeLoop])
  | succ n ih =>
    intro t w t' v w' h
    by_cases hc : truthy (slotAt ls t) = true
    · simp [bridgeLoop, hc] at h
      obtain ⟨h1, h2, h3⟩ := h
      subst h1
      refine ⟨Nat.le_refl t, h2.symm, ?_, ?_⟩
      · rw [← h2]; exact hc
      · rw [← h3]; simp [sleepIter]
    · simp only [bridgeLoop, hc, if_false, Bool.false_eq_true] at h
      obtain ⟨h1, h2, h3, h4⟩ := ih (t + 1) (sleepStep w) t' v w' h
      refine ⟨by omega, h2, h3, ?_⟩
      have hsub : t' - t = (t' - (t + 1)) + 1 := by omega
      rw [hsub, h4]
      rfl

/-- If the call returns, the underlying load had settled strictly before
the returning check, the value is the stored settled value, and it is
truthy. -/
theorem returns_settled (ls : LoadSpec) (w : World) (fuel t : Nat) (v : JSValue)
    (w' : World) (h : main ls w fuel = some (t, v, w')) :
    ∃ s o, ls.settle = some (s, o) ∧ s < t ∧ v = stored o ∧ truthy v = true ∧
      w' = sleepIter t w := by
  obtain ⟨-, h2, h3, h4⟩ := loop_inv ls fuel 0 w t v w' h
  cases hs : ls.settle with
  | none => rw [h2] at h3; simp [slotAt, hs, truthy] at h3
  | some p =>
    obtain ⟨s, o⟩ := p
    by_cases hst : s < t
    · refine ⟨s, o, rfl, hst, ?_, h3, ?_⟩
      · rw [h2]; simp [slotAt, hs, hst]
      · rw [h4]; simp
    · rw [h2] at h3; simp [slotAt, hs, hst, truthy] at h3

/-- After `d + 1` sleeps every still-pending other task has latency
beyond the elapsed time: tasks whose latency fell inside the slept
interval have completed and left the queue. -/
theorem sleepIter_tasks : ∀ (d : Nat) (w : World) (x : Nat),
    x ∈ (sleepIter (d + 1) w).otherTasks → w.time + (d + 1) < x := by
  intro d
  induction d with
  | zero =>
    intro w x hx
    simp only [sleepIter, sleepStep, List.mem_filter] at hx
    exact of_decide_eq_true hx.2
  | succ n ih =>
    intro w x hx
    have := ih (sleepStep w) x hx
    simp only [sleepStep] at this
    omega

/-- Each sleep advances the clock by one interval. -/
theorem sleepIter_time : ∀ (d : Nat) (w : World), (sleepIter d w).time = w.time + d := by
  intro d
  induction d with
  | zero => intro w; rfl
  | succ n ih =>
    intro w
    show (sleepIter n (sleepStep w)).time = w.time + (n + 1)
    rw [ih (sleepStep w)]
    simp only [sleepStep]
    omega

/-! ### The claims -/

/-- Claim C1, evaluated at the failing input: when the load rejects with
the truthy error `"not found"`, `main` does not raise anything — it
returns the error payload as its ordinary return value (the code stores
`err` into the same slot as a success and falls out of the loop). -/
theorem claim1_rejection_returned_as_value :
    main exErr ⟨0, []⟩ 2 = some (1, JSValue.vstr "not found", ⟨1, []⟩) := by decide

/-- Claim C2, evaluated at the failing input: when the load resolves
successfully to `{default: 0}`, the loop condition `while (!mod)` keeps
treating the stored `0` as still-pending and `main` never returns. -/
theorem claim2_falsy_success_never_returns :
    ∀ fuel, main exZero ⟨0, []⟩ fuel = none := fun fuel =>
  loop_stuck exZero
    (slot_always_falsy exZero 0 (Outcome.resolved [("default", JSValue.vnum 0)]) rfl (by decide))
    fuel 0 ⟨0, []⟩

/-- Counterexample to claim C3 as stated: a load that resolves
successfully to `{default: false}` never has its value `false` returned —
`main` does not terminate on it for any fuel. -/
theorem claim3_counterexample_false_default :
    ¬ ∃ fuel t w', main exFalse ⟨0, []⟩ fuel = some (t, JSValue.vbool false, w') := by
  rintro ⟨fuel, t, w', h⟩
  have hn : main exFalse ⟨0, []⟩ fuel = none :=
    loop_stuck exFalse
      (slot_always_falsy exFalse 0 (Outcome.resolved [("default", JSValue.vbool false)]) rfl
        (by decide))
      fuel 0 ⟨0, []⟩
  rw [hn] at h
  exact Option.noConfusion h

/-- Claim C3 as amended: for every load that resolves successfully with a
truthy `default` member `V`, `main` returns exactly `V` (the unwrapped
`res.default`), and any return happens strictly after the settlement
interval. -/
theorem claim3_truthy_default_returned (ls : LoadSpec) (s : Nat)
    (ns : List (String × JSValue)) (w : World)
    (hs : ls.settle = some (s, Outcome.resolved ns))
    (ht : truthy (getMember ns "default") = true) :
    (∃ w', main ls w (s + 2) = some (s + 1, getMember ns "default", w')) ∧
    ∀ fuel t v w', main ls w fuel = some (t, v, w') →
      v = getMember ns "default" ∧ s < t := by
  constructor
  · exact ⟨sleepIter (s + 1) w, run_to_settle ls hs ht (s + 1) 0 w (by omega)⟩
  · intro fuel t v w' h
    obtain ⟨s', o', hs', hlt, hv, -, -⟩ := returns_settled ls w fuel t v w' h
    rw [hs] at hs'
    simp only [Option.some.injEq, Prod.mk.injEq] at hs'
    obtain ⟨h1, h2⟩ := hs'
    constructor
    · rw [hv, ← h2]; rfl
    · omega

/-- Witness for the amended claim C3 at a concrete input. -/
theorem claim3_witness :
    ex42.settle = some (0, Outcome.resolved [("default", JSValue.vnum 42)]) ∧
    truthy (getMember [("default", JSValue.vnum 42)] "default") = true ∧
    ∃ w', main ex42 ⟨0, []⟩ 2 = some (1, getMember [("default", JSValue.vnum 42)] "default", w') :=
  ⟨rfl, by decide,
    (claim3_truthy_default_returned ex42 0 [("default", JSValue.vnum 42)] ⟨0, []⟩ rfl
      (by decide)).1⟩

/-- Claim C4: whenever `main` returns, the load had already settled
strictly before the returning check, and the returned value is the stored
settled value — never the pending placeholder `undefined`. -/
theorem claim4_returns_only_after_settlement (ls : LoadSpec) (w : World) (fuel t : Nat)
    (v : JSValue) (w' : World) (h : main ls w fuel = some (t, v, w')) :
    ∃ s o, ls.settle = some (s, o) ∧ s < t ∧ v = stored o ∧ v ≠ JSValue.undefined := by
  obtain ⟨s, o, h1, h2, h3, h4, -⟩ := returns_settled ls w fuel t v w' h
  refine ⟨s, o, h1, h2, h3, ?_⟩
  intro hv
  rw [hv] at h4
  exact absurd h4 (by simp [truthy])

/-- Witness for claim C4 at a concrete input. -/
theorem claim4_witness :
    main ex42 ⟨0, []⟩ 2 = some (1, JSValue.vnum 42, ⟨1, []⟩) ∧
    ∃ s o, ex42.settle = some (s, o) ∧ s < 1 ∧ JSValue.vnum 42 = stored o ∧
      JSValue.vnum 42 ≠ JSValue.undefined :=
  ⟨by decide,
    claim4_returns_only_after_settlement ex42 ⟨0, []⟩ 2 1 (JSValue.vnum 42) ⟨1, []⟩ (by decide)⟩

/-- Claim C5: the slot starts pending (`undefined`), and once non-pending
it keeps exactly that value forever — so it transitions at most once,
only from pending to a terminal value, never terminal-to-terminal and
never back to pending. -/
theorem claim5_slot_single_transition (ls : LoadSpec) :
    slotAt ls 0 = JSValue.undefined ∧
    ∀ t u, t ≤ u → slotAt ls t ≠ JSValue.undefined →
      slotAt ls u = slotAt ls t ∧ slotAt ls u ≠ JSValue.undefined := by
  refine ⟨slotAt_zero ls, ?_⟩
  intro t u htu hne
  have hst := slot_stable ls htu hne
  refine ⟨hst, ?_⟩
  rw [hst]
  exact hne

/-- Witness for claim C5 at a concrete input. -/
theorem claim5_witness :
    slotAt ex42 0 = JSValue.undefined ∧ (1 : Nat) ≤ 2 ∧
    slotAt ex42 1 ≠ JSValue.undefined ∧
    (slotAt ex42 2 = slotAt ex42 1 ∧ slotAt ex42 2 ≠ JSValue.undefined) :=
  ⟨(claim5_slot_single_transition ex42).1, by decide, by decide,
    (claim5_slot_single_transition ex42).2 1 2 (by decide) (by decide)⟩

/-- Claim C6: if the asynchronous load never settles, the polling loop
never terminates — `main` returns for no amount of fuel; the code applies
no timeout. -/
theorem claim6_never_settling_never_returns (ls : LoadSpec) (h : ls.settle = none) :
    ∀ w fuel, main ls w fuel = none := by
  intro w fuel
  exact loop_stuck ls (fun i => by simp [slotAt, h, truthy]) fuel 0 w

/-- Witness for claim C6 at a concrete input. -/
theorem claim6_witness : exNever.settle = none ∧ main exNever ⟨0, []⟩ 7 = none :=
  ⟨rfl, claim6_never_settling_never_returns exNever rfl ⟨0, []⟩ 7⟩

/-- Claim C7: two sequential invocations with different identifiers and
independent (truthy) outcomes each return exactly their own load's stored
value — the slot is per-invocation (`let mod` is function-local), so
nothing of the first call's slot leaks into the second result. -/
theorem claim7_sequential_calls_independent (env : Env) (u₁ u₂ : String) (_hne : u₁ ≠ u₂)
    (s₁ s₂ : Nat) (o₁ o₂ : Outcome) (w : World)
    (h₁ : (env u₁).settle = some (s₁, o₁)) (ht₁ : truthy (stored o₁) = true)
    (h₂ : (env u₂).settle = some (s₂, o₂)) (ht₂ : truthy (stored o₂) = true) :
    ∃ w', mainSeq2 env u₁ u₂ w (s₁ + 2) (s₂ + 2) =
      some ((s₁ + 1, stored o₁), (s₂ + 1, stored o₂), w') := by
  refine ⟨sleepIter (s₂ + 1) (sleepIter (s₁ + 1) w), ?_⟩
  have e₁ : bridge env u₁ w (s₁ + 2) = some (s₁ + 1, stored o₁, sleepIter (s₁ + 1) w) :=
    run_to_settle (env u₁) h₁ ht₁ (s₁ + 1) 0 w (by omega)
  have e₂ : bridge env u₂ (sleepIter (s₁ + 1) w) (s₂ + 2) =
      some (s₂ + 1, stored o₂, sleepIter (s₂ + 1) (sleepIter (s₁ + 1) w)) :=
    run_to_settle (env u₂) h₂ ht₂ (s₂ + 1) 0 (sleepIter (s₁ + 1) w) (by omega)
  simp [mainSeq2, e₁, e₂]

/-- Witness for claim C7 at a concrete environment with two identifiers. -/
theorem claim7_witness :
    ("fastMod" ≠ "otherMod") ∧
    (exEnv "fastMod").settle = some (0, Outcome.resolved [("default", JSValue.vnum 42)]) ∧
    (exEnv "otherMod").settle = some (2, Outcome.resolved [("default", JSValue.vstr "other")]) ∧
    ∃ w', mainSeq2 exEnv "fastMod" "otherMod" ⟨0, []⟩ 2 4 =
      some ((1, stored (Outcome.resolved [("default", JSValue.vnum 42)])),
            (3, stored (Outcome.resolved [("default", JSValue.vstr "other")])), w') :=
  ⟨by decide, by decide, by decide,
    claim7_sequential_calls_independent exEnv "fastMod" "otherMod" (by decide) 0 2
      (Outcome.resolved [("default", JSValue.vnum 42)])
      (Outcome.resolved [("default", JSValue.vstr "other")]) ⟨0, []⟩
      (by decide) (by decide) (by decide) (by decide)⟩

/-- Claim C8: while one invocation polls, each sleep drives the host
scheduler, so when the call returns after `t` intervals every other
pending task whose latency `l` fits inside the wait (`l ≤ t`) has already
completed and left the queue — the wait blocks only the calling flow. -/
theorem claim8_other_tasks_progress (ls : LoadSpec) (l fuel t : Nat) (v : JSValue)
    (w' : World) (hrun : main ls ⟨0, [l]⟩ fuel = some (t, v, w')) (hl : l ≤ t) :
    w'.time = t ∧ l ∉ w'.otherTasks := by
  obtain ⟨s, o, -, hst, -, -, hw⟩ := returns_settled ls ⟨0, [l]⟩ fuel t v w' hrun
  constructor
  · rw [hw, sleepIter_time]
    show 0 + t = t
    omega
  · intro hmem
    rw [hw] at hmem
    have ht1 : t = (t - 1) + 1 := by omega
    rw [ht1] at hmem
    have hgt := sleepIter_tasks (t - 1) ⟨0, [l]⟩ l hmem
    have hgt' : 0 + (t - 1 + 1) < l := hgt
    omega

/-- Witness for claim C8: a load settling after three intervals, run next
to another task of latency one; by the return the task has fired. -/
theorem claim8_witness :
    main exSlow ⟨0, [1]⟩ 5 = some (3, JSValue.vstr "slow", ⟨3, []⟩) ∧ (1 : Nat) ≤ 3 ∧
    ((⟨3, []⟩ : World).time = 3 ∧ (1 : Nat) ∉ (⟨3, []⟩ : World).otherTasks) :=
  ⟨by decide, by decide,
    claim8_other_tasks_progress exSlow 1 5 3 (JSValue.vstr "slow") ⟨3, []⟩ (by decide)
      (by decide)⟩

/-- Claim C9: a load that rejects with a truthy error `e` makes `main`
return `e` as its ordinary value, with exactly the same observable result
as a load that resolves successfully to `{default: e}` — the caller
cannot tell failure from success. -/
theorem claim9_truthy_error_returned_as_success (ls : LoadSpec) (s : Nat) (e : JSValue)
    (w : World) (hs : ls.settle = some (s, Outcome.rejected e)) (ht : truthy e = true) :
    main ls w (s + 2) = some (s + 1, e, sleepIter (s + 1) w) ∧
    main (⟨some (s, Outcome.resolved [("default", e)])⟩ : LoadSpec) w (s + 2) =
      some (s + 1, e, sleepIter (s + 1) w) := by
  constructor
  · exact run_to_settle ls hs ht (s + 1) 0 w (by omega)
  · exact run_to_settle (⟨some (s, Outcome.resolved [("default", e)])⟩ : LoadSpec) rfl
      (by simpa [stored, getMember] using ht) (s + 1) 0 w (by omega)

/-- Witness for claim C9 at a concrete rejecting load. -/
theorem claim9_witness :
    exErr.settle = some (0, Outcome.rejected (JSValue.vstr "not found")) ∧
    truthy (JSValue.vstr "not found") = true ∧
    (main exErr ⟨0, []⟩ 2 = some (1, JSValue.vstr "not found", sleepIter 1 ⟨0, []⟩) ∧
     main (⟨some (0, Outcome.resolved [("default", JSValue.vstr "not found")])⟩ : LoadSpec)
        ⟨0, []⟩ 2 = some (1, JSValue.vstr "not found", sleepIter 1 ⟨0, []⟩)) :=
  ⟨rfl, by decide,
    claim9_truthy_error_returned_as_success exErr 0 (JSValue.vstr "not found") ⟨0, []⟩ rfl
      (by decide)⟩

/-- Claim C10: a load that settles successfully but whose namespace has
no truthy `default` member (absent member reads as `undefined`, or the
member itself is falsy) leaves the slot falsy forever, so `main` never
returns even though the operation has settled. -/
theorem claim10_falsy_default_after_settle_hangs (ls : LoadSpec) (s : Nat)
    (ns : List (String × JSValue)) (hs : ls.settle = some (s, Outcome.resolved ns))
    (hf : truthy (getMember ns "default") = false) :
    ∀ w fuel, main ls w fuel = none := by
  intro w fuel
  exact loop_stuck ls (slot_always_falsy ls s (Outcome.resolved ns) hs hf) fuel 0 w

/-- Witness for claim C10 at a namespace without a `default` member. -/
theorem claim10_witness :
    exNoDefault.settle = some (0, Outcome.resolved [("name", JSValue.vstr "esm-pkg")]) ∧
    truthy (getMember [("name", JSValue.vstr "esm-pkg")] "default") = false ∧
    main exNoDefault ⟨0, []⟩ 9 = none :=
  ⟨rfl, by decide,
    claim10_falsy_default_after_settle_hangs exNoDefault 0 [("name", JSValue.vstr "esm-pkg")]
      rfl (by decide) ⟨0, []⟩ 9⟩

end RequireEsmInCjs
